import Mathlib

/-!
Shallow embedding of the resilient PKI-vault client:
the error taxonomy of shared/src/errors.rs, the health prober and the
resilient request executor of broker/src/crypto.rs, the certificate
gateway methods of broker/src/crypto.rs and the secure transport builder
of shared/src/http_proxy.rs, together with proofs of the behavioural
properties claimed for them.
-/

/-- Error taxonomy, the constructors of SamplyBeamError (shared/src/errors.rs)
that the vault client ever produces. VaultUnreachable carries a hyper transport
error in the source; the payload is not inspected anywhere, so it is dropped
here. VaultRedirectError carries the HTTP status (modelled as a Nat) and the
redirect location string. -/
inductive SamplyBeamError where
  | VaultSealed
  | VaultUnreachable
  | VaultNotInitialized
  | VaultRedirectError (status : Nat) (location : String)
  | VaultOtherError (msg : String)
  | HttpProxyProblem (msg : String)
  | ConfigurationFailed (msg : String)
deriving DecidableEq

/-- One HTTP response from the vault: status code, the raw bytes of the
Location header when present (a header value is bytes in hyper, decodable to
text only when it is visible ASCII), and a body of type β. The executor is
used with several body types, so the body is a parameter. -/
structure VaultResponse (β : Type) where
  status : Nat
  location : Option (List Nat)
  body : β
deriving DecidableEq

/-- StatusCode.is_success of the http crate: the 2xx range. -/
def isSuccess (code : Nat) : Bool := 200 ≤ code && code < 300

/-- StatusCode.is_redirection of the http crate: the 3xx range. -/
def isRedirection (code : Nat) : Bool := 300 ≤ code && code < 400

/-- StatusCode.is_client_error of the http crate: the 4xx range. -/
def isClientError (code : Nat) : Bool := 400 ≤ code && code < 500

/-- Propositional characterization of the 2xx test. -/
theorem isSuccess_eq_true_iff (s : Nat) : isSuccess s = true ↔ 200 ≤ s ∧ s < 300 := by
  simp [isSuccess]

/-- Propositional characterization of the negation of the 2xx test. -/
theorem isSuccess_eq_false_iff (s : Nat) : isSuccess s = false ↔ s < 200 ∨ 300 ≤ s := by
  simp only [isSuccess, Bool.and_eq_false_iff, decide_eq_false_iff_not]
  omega

/-- Propositional characterization of the 3xx test. -/
theorem isRedirection_eq_true_iff (s : Nat) :
    isRedirection s = true ↔ 300 ≤ s ∧ s < 400 := by
  simp [isRedirection]

/-- Propositional characterization of the negation of the 3xx test. -/
theorem isRedirection_eq_false_iff (s : Nat) :
    isRedirection s = false ↔ s < 300 ∨ 400 ≤ s := by
  simp only [isRedirection, Bool.and_eq_false_iff, decide_eq_false_iff_not]
  omega

/-- Propositional characterization of the 4xx test. -/
theorem isClientError_eq_true_iff (s : Nat) :
    isClientError s = true ↔ 400 ≤ s ∧ s < 500 := by
  simp [isClientError]

/-- Visible-ASCII test used by HeaderValue.to_str of the http crate:
a byte decodes iff it is horizontal tab or in the printable range 32..126. -/
def isVisibleAscii (b : Nat) : Bool := b == 9 || (32 ≤ b && b < 127)

/-- HeaderValue.to_str: yields the text of the header value when every byte
is visible ASCII, and fails otherwise. -/
def headerToStr (bs : List Nat) : Option String :=
  if bs.all isVisibleAscii then some (String.mk (bs.map Char.ofNat)) else none

/-- Detail string of the catch-all arm of check_vault_health
(crypto.rs line 52). The Display form of a StatusCode is modelled by its
numeric code. -/
def healthOtherMsg (code : Nat) : String :=
  "Vault healthcheck returned statuscode " ++ toString code

/-- check_vault_health (crypto.rs lines 33-54). The input is the outcome of
the GET on sys/health: none models a transport-level failure of the request,
some resp a response. Classification follows the source arm for arm:
transport failure to VaultUnreachable, 2xx to Ok, 3xx to VaultRedirectError
with the Location header echoed (or a sentinel when absent or garbled),
501 to VaultNotInitialized, 503 to VaultSealed, everything else to
VaultOtherError naming the code. -/
def checkVaultHealth (health : Option (VaultResponse Unit)) :
    Except SamplyBeamError Unit :=
  match health with
  | none => .error .VaultUnreachable
  | some resp =>
    if isSuccess resp.status then .ok ()
    else if isRedirection resp.status then
      let location : String :=
        match resp.location with
        | some bytes => (headerToStr bytes).getD "(garbled Location header)"
        | none => "(no Location header present)"
      .error (.VaultRedirectError resp.status location)
    else if resp.status == 501 then .error .VaultNotInitialized
    else if resp.status == 503 then .error .VaultSealed
    else .error (.VaultOtherError (healthOtherMsg resp.status))

/-- Maximum value of a u32, the default attempt budget chosen by
resilient_vault_request when max_tries is None (crypto.rs line 59). -/
def U32MAX : Nat := 4294967295

/-- Exhaustion message of resilient_vault_request (crypto.rs line 104). -/
def exhaustMsg (maxTries : Nat) : String :=
  "Samply.PKI: Unable to communicate after " ++ toString maxTries
    ++ " attempts. Giving up."

/-- Fatal message for a client error or redirection on the primary request
(crypto.rs line 79). The Display form of a StatusCode is modelled by its
numeric code. -/
def clientErrorMsg (code : Nat) : String :=
  "Samply.PKI: Vault reported client-side error (code " ++ toString code ++ ")"

/-- Decidable equality for Except values, needed to evaluate executor
outcomes on concrete inputs. -/
instance exceptDecEq {ε α : Type} [DecidableEq ε] [DecidableEq α] :
    DecidableEq (Except ε α) := fun a b =>
  match a, b with
  | .error e, .error f =>
    if h : e = f then .isTrue (congrArg Except.error h)
    else .isFalse (fun hh => h (Except.error.inj hh))
  | .ok x, .ok y =>
    if h : x = y then .isTrue (congrArg Except.ok h)
    else .isFalse (fun hh => h (Except.ok.inj hh))
  | .error _, .ok _ => .isFalse (fun hh => Except.noConfusion hh)
  | .ok _, .error _ => .isFalse (fun hh => Except.noConfusion hh)

/-- Outcome of one run of the executor loop: the returned value or error,
the number of primary attempts that were actually sent, and the number of
times the health prober was invoked. -/
structure ExecOutcome (β : Type) where
  result : Except SamplyBeamError (VaultResponse β)
  attempts : Nat
  probes : Nat
deriving DecidableEq

/-- Loop body of resilient_vault_request (crypto.rs lines 60-106). The
behaviour of the network is the input: primary i is the outcome of the
primary request of attempt i (none for a transport-level failure), probe i
the outcome of the health-check request if it is made during attempt i.
Arguments: m is the attempt budget (for the exhaustion message), then
remaining fuel, the attempt counter, and the probe counter. Arm for arm as
in the source: transport failure retries; 2xx returns the response; 4xx or
3xx returns VaultOtherError at once; any other status consults
checkVaultHealth, where VaultSealed retries, VaultRedirectError aborts with
that error, every other error retries, and Ok (healthy) retries as well. -/
def vaultGo {β : Type} (primary : Nat → Option (VaultResponse β))
    (probe : Nat → Option (VaultResponse Unit)) (m : Nat) :
    Nat → Nat → Nat → ExecOutcome β
  | 0, tries, probes => ⟨.error (.VaultOtherError (exhaustMsg m)), tries, probes⟩
  | r + 1, tries, probes =>
    match primary tries with
    | none => vaultGo primary probe m r (tries + 1) probes
    | some resp =>
      if isSuccess resp.status then ⟨.ok resp, tries + 1, probes⟩
      else if isClientError resp.status || isRedirection resp.status then
        ⟨.error (.VaultOtherError (clientErrorMsg resp.status)), tries + 1, probes⟩
      else
        match checkVaultHealth (probe tries) with
        | .error .VaultSealed => vaultGo primary probe m r (tries + 1) (probes + 1)
        | .error (.VaultRedirectError c l) =>
            ⟨.error (.VaultRedirectError c l), tries + 1, probes + 1⟩
        | .error _ => vaultGo primary probe m r (tries + 1) (probes + 1)
        | .ok _ => vaultGo primary probe m r (tries + 1) (probes + 1)

/-- resilient_vault_request (crypto.rs lines 56-107): the attempt budget
defaults to u32::MAX when max_tries is None, and the loop runs with that
budget starting from attempt 0. -/
def resilientVaultRequest {β : Type} (primary : Nat → Option (VaultResponse β))
    (probe : Nat → Option (VaultResponse Unit)) (maxTries : Option Nat) :
    ExecOutcome β :=
  vaultGo primary probe (maxTries.getD U32MAX) (maxTries.getD U32MAX) 0 0

/-- One attempt is retryable when the loop body neither returns nor aborts
on it: the primary request fails at transport level, or its status is
neither 2xx nor 4xx nor 3xx and the health probe of that attempt does not
report a redirect. -/
def attemptRetryable {β : Type} (primary : Nat → Option (VaultResponse β))
    (probe : Nat → Option (VaultResponse Unit)) (i : Nat) : Bool :=
  match primary i with
  | none => true
  | some resp =>
    !(isSuccess resp.status) && !(isClientError resp.status)
      && !(isRedirection resp.status)
      && !(match checkVaultHealth (probe i) with
           | .error (.VaultRedirectError _ _) => true
           | _ => false)

/-- Unpacking of attemptRetryable when the primary request of attempt i got
a response: the status is in none of the fatal or success families and the
probe of that attempt does not report a redirect. -/
theorem attemptRetryable_some {β : Type} {primary : Nat → Option (VaultResponse β)}
    {probe : Nat → Option (VaultResponse Unit)} {i : Nat} {resp : VaultResponse β}
    (hp : primary i = some resp)
    (h : attemptRetryable primary probe i = true) :
    isSuccess resp.status = false ∧ isClientError resp.status = false
      ∧ isRedirection resp.status = false
      ∧ ∀ c l, checkVaultHealth (probe i) ≠ .error (.VaultRedirectError c l) := by
  unfold attemptRetryable at h
  rw [hp] at h
  simp only [Bool.and_eq_true, Bool.not_eq_true'] at h
  refine ⟨h.1.1.1, h.1.1.2, h.1.2, ?_⟩
  intro c l hh
  rw [hh] at h
  simp at h

/-- Threading of the probe counter: raising the initial probe counter by k
raises the final probe count by k and changes nothing else. -/
theorem vaultGo_probes_shift {β : Type} (primary : Nat → Option (VaultResponse β))
    (probe : Nat → Option (VaultResponse Unit)) (m : Nat) :
    ∀ (r tries pb k : Nat),
      vaultGo primary probe m r tries (pb + k)
        = ⟨(vaultGo primary probe m r tries pb).result,
           (vaultGo primary probe m r tries pb).attempts,
           (vaultGo primary probe m r tries pb).probes + k⟩ := by
  intro r
  induction r with
  | zero => intro tries pb k; rfl
  | succ r ih =>
    intro tries pb k
    simp only [vaultGo]
    cases hp : primary tries with
    | none => exact ih (tries + 1) pb k
    | some resp =>
      by_cases hs : isSuccess resp.status
      · simp [hs]
      · by_cases hc : isClientError resp.status || isRedirection resp.status
        · simp [hs, hc]
        · simp only [hs, hc, if_neg, Bool.false_eq_true, not_false_eq_true]
          cases hh : checkVaultHealth (probe tries) with
          | ok u =>
            have := ih (tries + 1) (pb + 1) k
            rw [Nat.add_right_comm pb k 1]
            exact this
          | error e =>
            cases e with
            | VaultSealed =>
              have := ih (tries + 1) (pb + 1) k
              rw [Nat.add_right_comm pb k 1]
              exact this
            | VaultRedirectError c l => simp only [ExecOutcome.mk.injEq]; exact ⟨trivial, trivial, by omega⟩
            | VaultUnreachable =>
              have := ih (tries + 1) (pb + 1) k
              rw [Nat.add_right_comm pb k 1]
              exact this
            | VaultNotInitialized =>
              have := ih (tries + 1) (pb + 1) k
              rw [Nat.add_right_comm pb k 1]
              exact this
            | VaultOtherError d =>
              have := ih (tries + 1) (pb + 1) k
              rw [Nat.add_right_comm pb k 1]
              exact this
            | HttpProxyProblem d =>
              have := ih (tries + 1) (pb + 1) k
              rw [Nat.add_right_comm pb k 1]
              exact this
            | ConfigurationFailed d =>
              have := ih (tries + 1) (pb + 1) k
              rw [Nat.add_right_comm pb k 1]
              exact this

/-- A retryable attempt just moves the loop on: result and attempt count of
the run starting at a retryable attempt equal those of the run that starts
at the next attempt with one unit of fuel less. -/
theorem vaultGo_retry_step {β : Type} {primary : Nat → Option (VaultResponse β)}
    {probe : Nat → Option (VaultResponse Unit)} {m tries : Nat}
    (h : attemptRetryable primary probe tries = true) (r pb : Nat) :
    (vaultGo primary probe m (r + 1) tries pb).result
        = (vaultGo primary probe m r (tries + 1) pb).result
      ∧ (vaultGo primary probe m (r + 1) tries pb).attempts
        = (vaultGo primary probe m r (tries + 1) pb).attempts := by
  simp only [vaultGo]
  cases hp : primary tries with
  | none => exact ⟨rfl, rfl⟩
  | some resp =>
    obtain ⟨hs, hc, hr, hnred⟩ := attemptRetryable_some hp h
    simp only [hs, hc, hr, Bool.false_eq_true, if_neg, Bool.or_self, not_false_eq_true]
    cases hh : checkVaultHealth (probe tries) with
    | ok u =>
      rw [show pb + 1 = pb + 1 from rfl, vaultGo_probes_shift primary probe m r (tries + 1) pb 1]
      exact ⟨rfl, rfl⟩
    | error e =>
      cases e with
      | VaultSealed =>
        rw [vaultGo_probes_shift primary probe m r (tries + 1) pb 1]
        exact ⟨rfl, rfl⟩
      | VaultRedirectError c l => exact absurd hh (hnred c l)
      | VaultUnreachable =>
        rw [vaultGo_probes_shift primary probe m r (tries + 1) pb 1]
        exact ⟨rfl, rfl⟩
      | VaultNotInitialized =>
        rw [vaultGo_probes_shift primary probe m r (tries + 1) pb 1]
        exact ⟨rfl, rfl⟩
      | VaultOtherError d =>
        rw [vaultGo_probes_shift primary probe m r (tries + 1) pb 1]
        exact ⟨rfl, rfl⟩
      | HttpProxyProblem d =>
        rw [vaultGo_probes_shift primary probe m r (tries + 1) pb 1]
        exact ⟨rfl, rfl⟩
      | ConfigurationFailed d =>
        rw [vaultGo_probes_shift primary probe m r (tries + 1) pb 1]
        exact ⟨rfl, rfl⟩

/-- When every attempt inside the budget is retryable, the loop consumes the
whole budget and returns the exhaustion error, with exactly one primary
attempt per unit of fuel. -/
theorem vaultGo_all_retryable {β : Type} {primary : Nat → Option (VaultResponse β)}
    {probe : Nat → Option (VaultResponse Unit)} {m : Nat} :
    ∀ (r tries pb : Nat),
      (∀ i, tries ≤ i → i < tries + r → attemptRetryable primary probe i = true) →
      (vaultGo primary probe m r tries pb).result
          = .error (.VaultOtherError (exhaustMsg m))
        ∧ (vaultGo primary probe m r tries pb).attempts = tries + r := by
  intro r
  induction r with
  | zero => intro tries pb _; exact ⟨rfl, rfl⟩
  | succ r ih =>
    intro tries pb hall
    have hstep := vaultGo_retry_step (m := m)
      (hall tries (Nat.le_refl tries) (by omega)) r pb
    have hrest := ih (tries + 1) pb (fun i h1 h2 => hall i (by omega) (by omega))
    refine ⟨hstep.1.trans hrest.1, hstep.2.trans ?_⟩
    rw [hrest.2]
    omega

/-- The loop never makes more primary attempts than it has fuel. -/
theorem vaultGo_attempts_le {β : Type} (primary : Nat → Option (VaultResponse β))
    (probe : Nat → Option (VaultResponse Unit)) (m : Nat) :
    ∀ (r tries pb : Nat),
      (vaultGo primary probe m r tries pb).attempts ≤ tries + r := by
  intro r
  induction r with
  | zero => intro tries pb; exact Nat.le_refl tries
  | succ r ih =>
    intro tries pb
    simp only [vaultGo]
    cases hp : primary tries with
    | none => exact Nat.le_trans (ih (tries + 1) pb) (by omega)
    | some resp =>
      by_cases hs : isSuccess resp.status
      · simp only [hs, if_pos]; omega
      · by_cases hc : isClientError resp.status || isRedirection resp.status
        · simp only [hs, hc, Bool.false_eq_true, if_neg, if_pos, not_false_eq_true]; omega
        · simp only [hs, hc, Bool.false_eq_true, if_neg, not_false_eq_true]
          cases hh : checkVaultHealth (probe tries) with
          | ok u => exact Nat.le_trans (ih (tries + 1) (pb + 1)) (by omega)
          | error e =>
            cases e with
            | VaultSealed => exact Nat.le_trans (ih (tries + 1) (pb + 1)) (by omega)
            | VaultRedirectError c l => simp only []; omega
            | VaultUnreachable => exact Nat.le_trans (ih (tries + 1) (pb + 1)) (by omega)
            | VaultNotInitialized => exact Nat.le_trans (ih (tries + 1) (pb + 1)) (by omega)
            | VaultOtherError d => exact Nat.le_trans (ih (tries + 1) (pb + 1)) (by omega)
            | HttpProxyProblem d => exact Nat.le_trans (ih (tries + 1) (pb + 1)) (by omega)
            | ConfigurationFailed d => exact Nat.le_trans (ih (tries + 1) (pb + 1)) (by omega)

/-- When the first j attempts are retryable and attempt j gets a 2xx
response inside the budget, the loop returns that response after exactly
j + 1 primary attempts. -/
theorem vaultGo_success_at {β : Type} {primary : Nat → Option (VaultResponse β)}
    {probe : Nat → Option (VaultResponse Unit)} {m : Nat} :
    ∀ (j r tries pb : Nat) (resp : VaultResponse β), j < r →
      (∀ i, tries ≤ i → i < tries + j → attemptRetryable primary probe i = true) →
      primary (tries + j) = some resp → isSuccess resp.status = true →
      (vaultGo primary probe m r tries pb).result = .ok resp
        ∧ (vaultGo primary probe m r tries pb).attempts = tries + j + 1 := by
  intro j
  induction j with
  | zero =>
    intro r tries pb resp hjr _ hp hs
    obtain ⟨r', rfl⟩ : ∃ r', r = r' + 1 := ⟨r - 1, by omega⟩
    simp only [vaultGo]
    rw [Nat.add_zero] at hp
    rw [hp]
    simp [hs]
  | succ j ih =>
    intro r tries pb resp hjr hall hp hs
    obtain ⟨r', rfl⟩ : ∃ r', r = r' + 1 := ⟨r - 1, by omega⟩
    have hstep := vaultGo_retry_step (m := m)
      (hall tries (Nat.le_refl tries) (by omega)) r' pb
    have hrest := ih r' (tries + 1) pb resp (by omega)
      (fun i h1 h2 => hall i (by omega) (by omega))
      (by rw [show tries + 1 + j = tries + (j + 1) from by omega]; exact hp) hs
    refine ⟨hstep.1.trans hrest.1, hstep.2.trans ?_⟩
    rw [hrest.2]
    omega

/-- A VaultRedirectError coming out of the loop always originates in a
health-probe invocation: some probed attempt reported exactly that
redirect. -/
theorem vaultGo_redirect_source {β : Type} {primary : Nat → Option (VaultResponse β)}
    {probe : Nat → Option (VaultResponse Unit)} {m : Nat} :
    ∀ (r tries pb : Nat) (c : Nat) (l : String),
      (vaultGo primary probe m r tries pb).result
          = .error (.VaultRedirectError c l) →
      ∃ i, checkVaultHealth (probe i) = .error (.VaultRedirectError c l) := by
  intro r
  induction r with
  | zero => intro tries pb c l h; simp [vaultGo] at h
  | succ r ih =>
    intro tries pb c l h
    simp only [vaultGo] at h
    cases hp : primary tries with
    | none => rw [hp] at h; exact ih (tries + 1) pb c l h
    | some resp =>
      rw [hp] at h
      by_cases hs : isSuccess resp.status
      · simp [hs] at h
      · by_cases hc : isClientError resp.status || isRedirection resp.status
        · simp [hs, hc] at h
        · simp only [hs, hc, Bool.false_eq_true, if_neg, not_false_eq_true] at h
          cases hh : checkVaultHealth (probe tries) with
          | ok u => rw [hh] at h; exact ih (tries + 1) (pb + 1) c l h
          | error e =>
            cases e with
            | VaultSealed => rw [hh] at h; exact ih (tries + 1) (pb + 1) c l h
            | VaultRedirectError c2 l2 =>
              rw [hh] at h
              simp only [ExecOutcome.mk.injEq, Except.error.injEq,
                SamplyBeamError.VaultRedirectError.injEq] at h
              obtain ⟨⟨rfl, rfl⟩, -, -⟩ := h
              exact ⟨tries, hh⟩
            | VaultUnreachable => rw [hh] at h; exact ih (tries + 1) (pb + 1) c l h
            | VaultNotInitialized => rw [hh] at h; exact ih (tries + 1) (pb + 1) c l h
            | VaultOtherError d => rw [hh] at h; exact ih (tries + 1) (pb + 1) c l h
            | HttpProxyProblem d => rw [hh] at h; exact ih (tries + 1) (pb + 1) c l h
            | ConfigurationFailed d => rw [hh] at h; exact ih (tries + 1) (pb + 1) c l h

/-- UTF-8 encoding of one Unicode scalar value, RFC 3629: one byte below
0x80, two bytes below 0x800, three bytes below 0x10000, four bytes
otherwise. -/
def utf8EncodeChar (c : Nat) : List Nat :=
  if c < 128 then [c]
  else if c < 2048 then [192 + c / 64, 128 + c % 64]
  else if c < 65536 then [224 + c / 4096, 128 + (c / 64) % 64, 128 + c % 64]
  else [240 + c / 262144, 128 + (c / 4096) % 64, 128 + (c / 64) % 64, 128 + c % 64]

/-- UTF-8 encoding of a sequence of scalar values. -/
def utf8Encode : List Nat → List Nat
  | [] => []
  | c :: cs => utf8EncodeChar c ++ utf8Encode cs

/-- UTF-8 decoding as performed by the validation inside String::from_utf8:
strict RFC 3629, rejecting overlong forms, surrogates and values above
0x10FFFF; some gives the scalar values, none models Err(FromUtf8Error). -/
def utf8Decode : List Nat → Option (List Nat)
  | [] => some []
  | b :: rest =>
    if b < 128 then (utf8Decode rest).map (b :: ·)
    else if b < 194 then none
    else if b < 224 then
      match rest with
      | c1 :: rest1 =>
        if 128 ≤ c1 && c1 < 192 then
          (utf8Decode rest1).map (((b - 192) * 64 + (c1 - 128)) :: ·)
        else none
      | [] => none
    else if b < 240 then
      match rest with
      | c1 :: c2 :: rest2 =>
        if 128 ≤ c1 && c1 < 192 && 128 ≤ c2 && c2 < 192 then
          let cp := (b - 224) * 4096 + (c1 - 128) * 64 + (c2 - 128)
          if 2048 ≤ cp && !(55296 ≤ cp && cp < 57344) then
            (utf8Decode rest2).map (cp :: ·)
          else none
        else none
      | _ => none
    else
      match rest with
      | c1 :: c2 :: c3 :: rest3 =>
        if 128 ≤ c1 && c1 < 192 && 128 ≤ c2 && c2 < 192 && 128 ≤ c3 && c3 < 192 then
          let cp := (b - 240) * 262144 + (c1 - 128) * 4096
            + (c2 - 128) * 64 + (c3 - 128)
          if 65536 ≤ cp && cp < 1114112 then
            (utf8Decode rest3).map (cp :: ·)
          else none
        else none
      | _ => none

/-- One-step unfolding of utf8Decode on a non-empty byte string, stated so
that it can be used by rewriting wherever the recursive equations are
needed. -/
theorem utf8Decode_cons (b : Nat) (rest : List Nat) :
    utf8Decode (b :: rest) =
      if b < 128 then (utf8Decode rest).map (b :: ·)
      else if b < 194 then none
      else if b < 224 then
        match rest with
        | c1 :: rest1 =>
          if 128 ≤ c1 && c1 < 192 then
            (utf8Decode rest1).map (((b - 192) * 64 + (c1 - 128)) :: ·)
          else none
        | [] => none
      else if b < 240 then
        match rest with
        | c1 :: c2 :: rest2 =>
          if 128 ≤ c1 && c1 < 192 && 128 ≤ c2 && c2 < 192 then
            let cp := (b - 224) * 4096 + (c1 - 128) * 64 + (c2 - 128)
            if 2048 ≤ cp && !(55296 ≤ cp && cp < 57344) then
              (utf8Decode rest2).map (cp :: ·)
            else none
          else none
        | _ => none
      else
        match rest with
        | c1 :: c2 :: c3 :: rest3 =>
          if 128 ≤ c1 && c1 < 192 && 128 ≤ c2 && c2 < 192 && 128 ≤ c3 && c3 < 192 then
            let cp := (b - 240) * 262144 + (c1 - 128) * 4096
              + (c2 - 128) * 64 + (c3 - 128)
            if 65536 ≤ cp && cp < 1114112 then
              (utf8Decode rest3).map (cp :: ·)
            else none
          else none
        | _ => none := by
  cases rest with
  | nil => rfl
  | cons c1 r1 =>
    cases r1 with
    | nil => rfl
    | cons c2 r2 =>
      cases r2 with
      | nil => rfl
      | cons c3 r3 => rfl

/-- Decoding is a section of encoding: a byte string that decodes to a
scalar sequence is recovered byte for byte by encoding that sequence. -/
theorem utf8Decode_encode (bs : List Nat) :
    ∀ cs, utf8Decode bs = some cs → utf8Encode cs = bs := by
  induction bs using utf8Decode.induct with
  | case1 =>
    intro cs h
    rw [show utf8Decode [] = some [] from rfl, Option.some.injEq] at h
    rw [← h]
    rfl
  | case2 b rest h1 ih =>
    intro cs h
    rw [utf8Decode_cons] at h
    simp only [h1, if_true, if_pos, Option.map_eq_some'] at h
    obtain ⟨cs', hdec, rfl⟩ := h
    rw [utf8Encode, ih cs' hdec, utf8EncodeChar, if_pos h1]
    rfl
  | case3 b rest h1 h2 =>
    intro cs h
    rw [utf8Decode_cons] at h
    simp [h1, h2] at h
  | case4 b h1 h2 h3 c1 rest1 hg ih =>
    intro cs h
    rw [utf8Decode_cons] at h
    simp only [h1, h2, h3, hg, if_neg, if_pos, if_true, if_false,
      not_false_eq_true, Option.map_eq_some'] at h
    obtain ⟨cs', hdec, rfl⟩ := h
    simp only [Bool.and_eq_true, decide_eq_true_eq] at hg
    rw [utf8Encode, ih cs' hdec, utf8EncodeChar]
    rw [if_neg (by omega), if_pos (by omega)]
    have e1 : 192 + ((b - 192) * 64 + (c1 - 128)) / 64 = b := by omega
    have e2 : 128 + ((b - 192) * 64 + (c1 - 128)) % 64 = c1 := by omega
    rw [e1, e2]
    rfl
  | case5 b h1 h2 h3 c1 rest1 hg =>
    intro cs h
    rw [utf8Decode_cons] at h
    simp [h1, h2, h3, hg] at h
  | case6 b h1 h2 h3 =>
    intro cs h
    rw [utf8Decode_cons] at h
    simp [h1, h2, h3] at h
  | case7 b h1 h2 h3 h4 c1 c2 rest2 hg cp hcp ih =>
    intro cs h
    have hcpeq : cp = (b - 224) * 4096 + (c1 - 128) * 64 + (c2 - 128) := rfl
    rw [hcpeq] at hcp
    rw [utf8Decode_cons] at h
    simp only [h1, h2, h3, h4, hg, hcp, if_neg, if_pos, if_true, if_false,
      not_false_eq_true, Option.map_eq_some'] at h
    obtain ⟨cs', hdec, rfl⟩ := h
    simp only [Bool.and_eq_true, decide_eq_true_eq] at hg
    simp only [Bool.and_eq_true, Bool.not_eq_true', Bool.and_eq_false_iff,
      decide_eq_true_eq, decide_eq_false_iff_not] at hcp
    rw [utf8Encode, ih cs' hdec, utf8EncodeChar]
    rw [if_neg (by omega), if_neg (by omega), if_pos (by omega)]
    have e1 : 224 + ((b - 224) * 4096 + (c1 - 128) * 64 + (c2 - 128)) / 4096 = b := by
      omega
    have e2 : 128 + (((b - 224) * 4096 + (c1 - 128) * 64 + (c2 - 128)) / 64) % 64 = c1 := by
      omega
    have e3 : 128 + ((b - 224) * 4096 + (c1 - 128) * 64 + (c2 - 128)) % 64 = c2 := by
      omega
    rw [e1, e2, e3]
    rfl
  | case8 b h1 h2 h3 h4 c1 c2 rest2 hg cp hneg =>
    intro cs h
    have hcpeq : cp = (b - 224) * 4096 + (c1 - 128) * 64 + (c2 - 128) := rfl
    rw [hcpeq] at hneg
    rw [utf8Decode_cons] at h
    simp [h1, h2, h3, h4, hg] at h
    exfalso
    apply hneg
    rcases h with ⟨⟨hge, hdisj⟩, -⟩
    simp only [Bool.and_eq_true, Bool.not_eq_true', Bool.and_eq_false_iff,
      decide_eq_true_eq, decide_eq_false_iff_not]
    omega
  | case9 b h1 h2 h3 h4 c1 c2 rest2 hg =>
    intro cs h
    rw [utf8Decode_cons] at h
    simp [h1, h2, h3, h4, hg] at h
  | case10 b rest h1 h2 h3 h4 hshape =>
    intro cs h
    rw [utf8Decode_cons] at h
    match rest, hshape with
    | [], _ => simp [h1, h2, h3, h4] at h
    | [c1], _ => simp [h1, h2, h3, h4] at h
    | c1 :: c2 :: rest2, hshape => exact absurd rfl (hshape c1 c2 rest2)
  | case11 b h1 h2 h3 h4 c1 c2 c3 rest3 hg cp hcp ih =>
    intro cs h
    have hcpeq : cp = (b - 240) * 262144 + (c1 - 128) * 4096 + (c2 - 128) * 64
      + (c3 - 128) := rfl
    rw [hcpeq] at hcp
    rw [utf8Decode_cons] at h
    simp only [h1, h2, h3, h4, hg, hcp, if_neg, if_pos, if_true, if_false,
      not_false_eq_true, Option.map_eq_some'] at h
    obtain ⟨cs', hdec, rfl⟩ := h
    simp only [Bool.and_eq_true, decide_eq_true_eq] at hg hcp
    rw [utf8Encode, ih cs' hdec, utf8EncodeChar]
    rw [if_neg (by omega), if_neg (by omega), if_neg (by omega)]
    have e1 : 240 + ((b - 240) * 262144 + (c1 - 128) * 4096 + (c2 - 128) * 64
        + (c3 - 128)) / 262144 = b := by omega
    have e2 : 128 + (((b - 240) * 262144 + (c1 - 128) * 4096 + (c2 - 128) * 64
        + (c3 - 128)) / 4096) % 64 = c1 := by omega
    have e3 : 128 + (((b - 240) * 262144 + (c1 - 128) * 4096 + (c2 - 128) * 64
        + (c3 - 128)) / 64) % 64 = c2 := by omega
    have e4 : 128 + ((b - 240) * 262144 + (c1 - 128) * 4096 + (c2 - 128) * 64
        + (c3 - 128)) % 64 = c3 := by omega
    rw [e1, e2, e3, e4]
    rfl
  | case12 b h1 h2 h3 h4 c1 c2 c3 rest3 hg cp hneg =>
    intro cs h
    have hcpeq : cp = (b - 240) * 262144 + (c1 - 128) * 4096 + (c2 - 128) * 64
      + (c3 - 128) := rfl
    rw [hcpeq] at hneg
    rw [utf8Decode_cons] at h
    simp [h1, h2, h3, h4, hg] at h
    exfalso
    apply hneg
    rcases h with ⟨⟨hge, hlt⟩, -⟩
    simp only [Bool.and_eq_true, decide_eq_true_eq]
    omega
  | case13 b h1 h2 h3 h4 c1 c2 c3 rest3 hg =>
    intro cs h
    rw [utf8Decode_cons] at h
    simp [h1, h2, h3, h4, hg] at h
  | case14 b rest h1 h2 h3 h4 hshape =>
    intro cs h
    rw [utf8Decode_cons] at h
    match rest, hshape with
    | [], _ => simp [h1, h2, h3, h4] at h
    | [c1], _ => simp [h1, h2, h3, h4] at h
    | [c1, c2], _ => simp [h1, h2, h3, h4] at h
    | c1 :: c2 :: c3 :: rest3, hshape => exact absurd rfl (hshape c1 c2 c3 rest3)

/-- JSON documents, the value model that serde_json parses a response body
into before deserializing it into PkiListResponse. Numbers are modelled as
integers, which covers every field the struct declares. -/
inductive Json where
  | null
  | bool (b : Bool)
  | num (n : Int)
  | str (s : String)
  | arr (elems : List Json)
  | obj (fields : List (String × Json))

/-- Lookup of a top-level field of a JSON object; none on a missing field
or on a non-object document. -/
def Json.getField : Json → String → Option Json
  | .obj fields, k => (fields.find? (fun p => p.1 == k)).map (fun p => p.2)
  | _, _ => none

/-- Mandatory string field, as serde derives it for a field of type String:
absent or non-string values are deserialization errors. -/
def reqStr (j : Json) (k : String) : Except String String :=
  match j.getField k with
  | some (.str s) => .ok s
  | some _ => .error ("invalid type for field " ++ k)
  | none => .error ("missing field " ++ k)

/-- Mandatory bool field, as serde derives it for a field of type bool. -/
def reqBool (j : Json) (k : String) : Except String Bool :=
  match j.getField k with
  | some (.bool b) => .ok b
  | some _ => .error ("invalid type for field " ++ k)
  | none => .error ("missing field " ++ k)

/-- Mandatory u32 field, as serde derives it for a field of type u32: an
integer in the u32 range. -/
def reqU32 (j : Json) (k : String) : Except String Nat :=
  match j.getField k with
  | some (.num n) =>
    if 0 ≤ n ∧ n < 4294967296 then .ok n.toNat
    else .error ("invalid value for field " ++ k)
  | some _ => .error ("invalid type for field " ++ k)
  | none => .error ("missing field " ++ k)

/-- Optional string field, as serde derives it for a field of type
Option of String: a missing field or an explicit null is None, a string is
Some, anything else is a deserialization error. -/
def optStr (j : Json) (k : String) : Except String (Option String) :=
  match j.getField k with
  | none => .ok none
  | some .null => .ok none
  | some (.str s) => .ok (some s)
  | some _ => .error ("invalid type for field " ++ k)

/-- Elementwise decoding of a JSON array of strings (Vec of String). -/
def decodeStrList : List Json → Except String (List String)
  | [] => .ok []
  | .str s :: rest => (decodeStrList rest).map (s :: ·)
  | _ :: _ => .error "invalid type: expected string"

/-- KeyHolder (crypto.rs line 19): the inner object holding the keys
array. -/
structure KeyHolder where
  keys : List String
deriving DecidableEq

/-- Deserialization of KeyHolder: the field keys must be present and be an
array of strings. -/
def KeyHolder.fromJson (j : Json) : Except String KeyHolder :=
  match j.getField "keys" with
  | some (.arr xs) => (decodeStrList xs).map KeyHolder.mk
  | some _ => .error "invalid type for field keys"
  | none => .error "missing field keys"

/-- PkiListResponse (crypto.rs lines 20-30), field for field: request_id,
lease_id, renewable and lease_duration are mandatory because they are
declared without Option; wrap_info, warnings and auth are optional. -/
structure PkiListResponse where
  request_id : String
  lease_id : String
  renewable : Bool
  lease_duration : Nat
  data : KeyHolder
  wrap_info : Option String
  warnings : Option String
  auth : Option String
deriving DecidableEq

/-- Deserialization of PkiListResponse from a JSON document as the serde
derive performs it: every declared field is decoded by its type, a missing
mandatory field is an error, unknown extra fields are ignored. -/
def PkiListResponse.fromJson (j : Json) : Except String PkiListResponse :=
  match reqStr j "request_id" with
  | .error e => .error e
  | .ok rid =>
  match reqStr j "lease_id" with
  | .error e => .error e
  | .ok lid =>
  match reqBool j "renewable" with
  | .error e => .error e
  | .ok ren =>
  match reqU32 j "lease_duration" with
  | .error e => .error e
  | .ok ld =>
  match j.getField "data" with
  | none => .error "missing field data"
  | some dataJson =>
  match KeyHolder.fromJson dataJson with
  | .error e => .error e
  | .ok data =>
  match optStr j "wrap_info" with
  | .error e => .error e
  | .ok wrapInfo =>
  match optStr j "warnings" with
  | .error e => .error e
  | .ok warnings =>
  match optStr j "auth" with
  | .error e => .error e
  | .ok auth => .ok ⟨rid, lid, ren, ld, data, wrapInfo, warnings, auth⟩

/-- certificate_list (crypto.rs lines 112-121): a LIST request through the
executor with unlimited budget, whose body (modelled as the parsed JSON
document) is deserialized as PkiListResponse; the keys of its data field
are returned in order. Executor errors propagate unchanged;
deserialization failures become VaultOtherError. -/
def certificateList (primary : Nat → Option (VaultResponse Json))
    (probe : Nat → Option (VaultResponse Unit)) :
    Except SamplyBeamError (List String) :=
  match (resilientVaultRequest primary probe none).result with
  | .error e => .error e
  | .ok resp =>
    match PkiListResponse.fromJson resp.body with
    | .error e =>
      .error (.VaultOtherError ("Cannot deserialize vault certificate list: " ++ e))
    | .ok body => .ok body.data.keys

/-- Error detail of certificate_by_serial_as_pem when the body is not valid
UTF-8 (crypto.rs line 129); the FromUtf8Error display is summarized by a
fixed description. -/
def pemParseErrMsg (serial : String) : String :=
  "Cannot parse certificate " ++ serial ++ ": invalid UTF-8"

/-- certificate_by_serial_as_pem (crypto.rs lines 123-131): a GET through
the executor with unlimited budget; the body bytes are decoded as UTF-8 and
returned as text (modelled as the scalar-value sequence), a non-UTF-8 body
becomes VaultOtherError, executor errors propagate unchanged. -/
def certificateBySerialAsPem (primary : Nat → Option (VaultResponse (List Nat)))
    (probe : Nat → Option (VaultResponse Unit)) (serial : String) :
    Except SamplyBeamError (List Nat) :=
  match (resilientVaultRequest primary probe none).result with
  | .error e => .error e
  | .ok resp =>
    match utf8Decode resp.body with
    | none => .error (.VaultOtherError (pemParseErrMsg serial))
    | some text => .ok text

/-- An X509 certificate handed to the transport builder, together with the
outcome of its to_pem re-encoding: none models an encoding failure (the
source unwraps it with expect, i.e. panics). -/
structure X509 where
  pemBytes : Option (List Nat)

/-- A native-TLS Certificate as produced by Certificate::from_pem. -/
structure TlsCert where
  der : List Nat

/-- Environment of build_hyper_client: the outcome of the proxy discovery
performed by connector() on the conventional proxy variables (Err models a
discovery failure, which the source turns into a panic), the behaviour of
Certificate::from_pem, and the outcome of TlsConnector::build on the
accumulated root certificates. -/
structure BuildEnv where
  connectorProxies : Except String (List String)
  fromPem : List Nat → Option TlsCert
  tlsBuild : List TlsCert → Except String Unit

/-- Result of the transport builder: a client, an io::Error (the typed
error branch, surfaced by the caller as SamplyBeamError.HttpProxyProblem),
or a panic with its message. -/
inductive BuildResult where
  | ok
  | ioError (msg : String)
  | panicked (msg : String)
deriving DecidableEq

/-- Panic message of the certificate conversion expects
(http_proxy.rs line 25). -/
def certConvertErr : String := "Internal Error: Unable to convert Certificate."

/-- Conversion loop over the trust anchors (http_proxy.rs lines 24-28):
each certificate is re-encoded with to_pem and re-parsed with
Certificate::from_pem, both unwrapped with expect; an error result models
the panic at the first failing certificate. -/
def convertCerts (env : BuildEnv) : List X509 → Except String (List TlsCert)
  | [] => .ok []
  | c :: rest =>
    match c.pemBytes with
    | none => .error certConvertErr
    | some bytes =>
      match env.fromPem bytes with
      | none => .error certConvertErr
      | some t => (convertCerts env rest).map (t :: ·)

/-- Misconfiguration message of build_hyper_client (http_proxy.rs
line 40). -/
def proxyMisconfigMsg : String :=
  "Certificates for TLS termination were provided but no proxy to use. Please supply correct configuration."

/-- build_hyper_client (http_proxy.rs lines 14-56). Step for step: the
proxy connector discovery panics on failure; when the trust-anchor set is
non-empty each anchor is converted (panicking on failure) and the custom
TLS connector is built (returning an io::Error on failure); then the
resolved proxy set is deduplicated (HashSet) and, when it is empty while
trust anchors were supplied, the io::Error about missing proxies is
returned; otherwise the client is built. -/
def build_hyper_client (env : BuildEnv) (ca_certificates : List X509) :
    BuildResult :=
  match env.connectorProxies with
  | .error e => .panicked ("Unable to build HTTP client: " ++ e)
  | .ok proxies =>
    let tlsStep : Except BuildResult Unit :=
      if ca_certificates.isEmpty then .ok ()
      else
        match convertCerts env ca_certificates with
        | .error p => .error (.panicked p)
        | .ok roots =>
          match env.tlsBuild roots with
          | .error e =>
            .error (.ioError
              ("Unable to build TLS Connector with custom CA certificates: " ++ e))
          | .ok _ => .ok ()
    match tlsStep with
    | .error r => r
    | .ok _ =>
      if proxies.dedup.length = 0 ∧ 0 < ca_certificates.length then
        .ioError proxyMisconfigMsg
      else .ok

/-- Primary trace of the concrete scenario of claim C1: a 503 on attempt 0,
then 2xx responses. -/
def c1Primary : Nat → Option (VaultResponse Unit) :=
  fun i => if i = 0 then some ⟨503, none, ()⟩ else some ⟨200, none, ()⟩

/-- Probe trace of the concrete scenario of claim C1: the health endpoint
always answers 2xx, i.e. the prober reports healthy. -/
def c1Probe : Nat → Option (VaultResponse Unit) :=
  fun _ => some ⟨200, none, ()⟩

/-- C3: the health probe classifies one response strictly by status code:
transport failure gives Unreachable; every 2xx gives Healthy (Ok); every
3xx gives Redirected with the exact Location header value, the sentinel for
an absent header, or the garbled sentinel for an undecodable one; exactly
501 gives NotInitialized; exactly 503 gives Sealed; every other status
gives OtherError naming the code. -/
theorem claim_C3 (resp : VaultResponse Unit) :
    (checkVaultHealth none = .error .VaultUnreachable) ∧
    (200 ≤ resp.status → resp.status < 300 → checkVaultHealth (some resp) = .ok ()) ∧
    (300 ≤ resp.status → resp.status < 400 → resp.location = none →
      checkVaultHealth (some resp)
        = .error (.VaultRedirectError resp.status "(no Location header present)")) ∧
    (∀ bs, 300 ≤ resp.status → resp.status < 400 → resp.location = some bs →
      headerToStr bs = none →
      checkVaultHealth (some resp)
        = .error (.VaultRedirectError resp.status "(garbled Location header)")) ∧
    (∀ bs s, 300 ≤ resp.status → resp.status < 400 → resp.location = some bs →
      headerToStr bs = some s →
      checkVaultHealth (some resp) = .error (.VaultRedirectError resp.status s)) ∧
    (resp.status = 501 → checkVaultHealth (some resp) = .error .VaultNotInitialized) ∧
    (resp.status = 503 → checkVaultHealth (some resp) = .error .VaultSealed) ∧
    (resp.status < 200 ∨ (400 ≤ resp.status ∧ resp.status ≠ 501 ∧ resp.status ≠ 503) →
      checkVaultHealth (some resp)
        = .error (.VaultOtherError (healthOtherMsg resp.status))) := by
  refine ⟨rfl, ?_, ?_, ?_, ?_, ?_, ?_, ?_⟩
  · intro ha hb
    have hs : isSuccess resp.status = true := by
      rw [isSuccess_eq_true_iff]; omega
    simp [checkVaultHealth, hs]
  · intro ha hb hloc
    have hs : isSuccess resp.status = false := by
      rw [isSuccess_eq_false_iff]; omega
    have hr : isRedirection resp.status = true := by
      rw [isRedirection_eq_true_iff]; omega
    simp [checkVaultHealth, hs, hr, hloc]
  · intro bs ha hb hloc hdr
    have hs : isSuccess resp.status = false := by
      rw [isSuccess_eq_false_iff]; omega
    have hr : isRedirection resp.status = true := by
      rw [isRedirection_eq_true_iff]; omega
    simp [checkVaultHealth, hs, hr, hloc, hdr]
  · intro bs s ha hb hloc hdr
    have hs : isSuccess resp.status = false := by
      rw [isSuccess_eq_false_iff]; omega
    have hr : isRedirection resp.status = true := by
      rw [isRedirection_eq_true_iff]; omega
    simp [checkVaultHealth, hs, hr, hloc, hdr]
  · intro h
    have hs : isSuccess resp.status = false := by
      rw [isSuccess_eq_false_iff]; omega
    have hr : isRedirection resp.status = false := by
      rw [isRedirection_eq_false_iff]; omega
    have hb1 : (resp.status == 501) = true := by rw [beq_iff_eq]; exact h
    simp [checkVaultHealth, hs, hr, hb1]
  · intro h
    have hs : isSuccess resp.status = false := by
      rw [isSuccess_eq_false_iff]; omega
    have hr : isRedirection resp.status = false := by
      rw [isRedirection_eq_false_iff]; omega
    have hb1 : (resp.status == 501) = false := by
      rw [beq_eq_false_iff_ne]; omega
    have hb2 : (resp.status == 503) = true := by rw [beq_iff_eq]; exact h
    simp [checkVaultHealth, hs, hr, hb1, hb2]
  · intro h
    have hs : isSuccess resp.status = false := by
      rw [isSuccess_eq_false_iff]; rcases h with h | ⟨h1, h2, h3⟩ <;> omega
    have hr : isRedirection resp.status = false := by
      rw [isRedirection_eq_false_iff]; rcases h with h | ⟨h1, h2, h3⟩ <;> omega
    have h501 : (resp.status == 501) = false := by
      rw [beq_eq_false_iff_ne]; rcases h with h | ⟨h1, h2, h3⟩
      · omega
      · exact h2
    have h503 : (resp.status == 503) = false := by
      rw [beq_eq_false_iff_ne]; rcases h with h | ⟨h1, h2, h3⟩
      · omega
      · exact h3
    simp [checkVaultHealth, hs, hr, h501, h503]

/-- Witness for C3: a 302 response with Location bytes for the slash
character is classified as a redirect echoing the decoded header, and a
bare 503 is classified as Sealed. -/
theorem claim_C3_witness :
    checkVaultHealth (some ⟨302, some [47], ()⟩)
        = .error (.VaultRedirectError 302 "/") ∧
      checkVaultHealth (some ⟨503, none, ()⟩) = .error .VaultSealed := by
  constructor
  · exact (claim_C3 ⟨302, some [47], ()⟩).2.2.2.2.1 [47] "/"
      (by decide) (by decide) rfl (by decide)
  · exact (claim_C3 ⟨503, none, ()⟩).2.2.2.2.2.2.1 rfl

/-- C1: on a primary status outside the 2xx, 4xx and 3xx families the
executor invokes the health probe and decides by its verdict: Sealed,
Unreachable, NotInitialized, OtherError and Healthy each make the loop take
another primary attempt (with the probe counter incremented), while
Redirected aborts at once with the redirect status and location; moreover,
in the concrete scenario of a primary 503 whose probe reports healthy and a
2xx on the next attempt, the executor makes exactly 2 primary attempts and
returns the success. -/
theorem claim_C1 {β : Type} (primary : Nat → Option (VaultResponse β))
    (probe : Nat → Option (VaultResponse Unit)) (m r tries probes : Nat)
    (resp : VaultResponse β) (hresp : primary tries = some resp)
    (hsucc : isSuccess resp.status = false)
    (hcli : isClientError resp.status = false)
    (hred : isRedirection resp.status = false) :
    (checkVaultHealth (probe tries) = .error .VaultSealed →
      vaultGo primary probe m (r + 1) tries probes
        = vaultGo primary probe m r (tries + 1) (probes + 1)) ∧
    (checkVaultHealth (probe tries) = .error .VaultUnreachable →
      vaultGo primary probe m (r + 1) tries probes
        = vaultGo primary probe m r (tries + 1) (probes + 1)) ∧
    (checkVaultHealth (probe tries) = .error .VaultNotInitialized →
      vaultGo primary probe m (r + 1) tries probes
        = vaultGo primary probe m r (tries + 1) (probes + 1)) ∧
    (∀ d, checkVaultHealth (probe tries) = .error (.VaultOtherError d) →
      vaultGo primary probe m (r + 1) tries probes
        = vaultGo primary probe m r (tries + 1) (probes + 1)) ∧
    (checkVaultHealth (probe tries) = .ok () →
      vaultGo primary probe m (r + 1) tries probes
        = vaultGo primary probe m r (tries + 1) (probes + 1)) ∧
    (∀ c l, checkVaultHealth (probe tries) = .error (.VaultRedirectError c l) →
      vaultGo primary probe m (r + 1) tries probes
        = ⟨.error (.VaultRedirectError c l), tries + 1, probes + 1⟩) ∧
    (resilientVaultRequest c1Primary c1Probe none
      = ⟨.ok ⟨200, none, ()⟩, 2, 1⟩) := by
  refine ⟨?_, ?_, ?_, ?_, ?_, ?_, by decide⟩
  · intro hp
    simp only [vaultGo, hresp, hsucc, hcli, hred, hp, Bool.or_self,
      Bool.false_eq_true, if_neg, not_false_eq_true]
  · intro hp
    simp only [vaultGo, hresp, hsucc, hcli, hred, hp, Bool.or_self,
      Bool.false_eq_true, if_neg, not_false_eq_true]
  · intro hp
    simp only [vaultGo, hresp, hsucc, hcli, hred, hp, Bool.or_self,
      Bool.false_eq_true, if_neg, not_false_eq_true]
  · intro d hp
    simp only [vaultGo, hresp, hsucc, hcli, hred, hp, Bool.or_self,
      Bool.false_eq_true, if_neg, not_false_eq_true]
  · intro hp
    simp only [vaultGo, hresp, hsucc, hcli, hred, hp, Bool.or_self,
      Bool.false_eq_true, if_neg, not_false_eq_true]
  · intro c l hp
    simp only [vaultGo, hresp, hsucc, hcli, hred, hp, Bool.or_self,
      Bool.false_eq_true, if_neg, not_false_eq_true]

/-- Witness for C1: in the concrete run a healthy probe verdict after a 503
primary makes the executor proceed from attempt 0 to attempt 1. -/
theorem claim_C1_witness :
    vaultGo c1Primary c1Probe 5 5 0 0 = vaultGo c1Primary c1Probe 5 4 1 1 :=
  (claim_C1 c1Primary c1Probe 5 4 0 0 ⟨503, none, ()⟩ rfl (by decide) (by decide)
    (by decide)).2.2.2.2.1 (by decide)

/-- C6: a primary response in the 4xx or 3xx family makes the executor
return FatalFailure at once: the loop aborts in-place with VaultOtherError,
without consulting the health probe, and when such a response arrives on
the very first attempt the whole run stops after exactly 1 primary attempt
and 0 probe invocations. -/
theorem claim_C6 {β : Type} (primary : Nat → Option (VaultResponse β))
    (probe : Nat → Option (VaultResponse Unit)) (m r tries probes : Nat)
    (mt : Option Nat) (resp : VaultResponse β)
    (hresp : primary tries = some resp)
    (hcode : isClientError resp.status = true ∨ isRedirection resp.status = true) :
    (vaultGo primary probe m (r + 1) tries probes
      = ⟨.error (.VaultOtherError (clientErrorMsg resp.status)), tries + 1, probes⟩) ∧
    (primary 0 = some resp → 1 ≤ mt.getD U32MAX →
      resilientVaultRequest primary probe mt
        = ⟨.error (.VaultOtherError (clientErrorMsg resp.status)), 1, 0⟩) := by
  have hs : isSuccess resp.status = false := by
    rw [isSuccess_eq_false_iff]
    rcases hcode with h | h
    · rw [isClientError_eq_true_iff] at h; omega
    · rw [isRedirection_eq_true_iff] at h; omega
  have hor : (isClientError resp.status || isRedirection resp.status) = true := by
    rcases hcode with h | h <;> simp [h]
  constructor
  · simp only [vaultGo, hresp, hs, hor, Bool.false_eq_true, if_neg, if_pos,
      not_false_eq_true, if_true]
  · intro h0 hm
    obtain ⟨M, hM⟩ : ∃ M, mt.getD U32MAX = M + 1 := ⟨mt.getD U32MAX - 1, by omega⟩
    rw [resilientVaultRequest, hM]
    simp only [vaultGo, h0, hs, hor, Bool.false_eq_true, if_neg, if_pos,
      not_false_eq_true, if_true]

/-- Witness for C6: a 404 on the first attempt stops the run after one
attempt with the client-side fatal error and no probe call. -/
theorem claim_C6_witness :
    resilientVaultRequest (fun _ => some (⟨404, none, ()⟩ : VaultResponse Unit))
        (fun _ => none) none
      = ⟨.error (.VaultOtherError (clientErrorMsg 404)), 1, 0⟩ :=
  (claim_C6 (fun _ => some ⟨404, none, ()⟩) (fun _ => none) 0 0 0 0 none
    ⟨404, none, ()⟩ rfl (Or.inl (by decide))).2 rfl (by decide)

/-- C10: a 3xx answered directly by the primary request is fatal with the
VaultOtherError kind carrying the client-side-error detail, never with
VaultRedirected, and the outcome does not depend on the Location header of
that response (the response is arbitrary in its location field and the
result never mentions it); a VaultRedirectError can only come out of the
executor when some health-probe invocation reported exactly that
redirect. -/
theorem claim_C10 {β : Type} (primary : Nat → Option (VaultResponse β))
    (probe : Nat → Option (VaultResponse Unit)) (mt : Option Nat)
    (resp : VaultResponse β) (hresp : primary 0 = some resp)
    (h3xx : isRedirection resp.status = true)
    (hm : 1 ≤ mt.getD U32MAX) :
    (resilientVaultRequest primary probe mt
      = ⟨.error (.VaultOtherError (clientErrorMsg resp.status)), 1, 0⟩) ∧
    (∀ (γ : Type) (primary2 : Nat → Option (VaultResponse γ))
        (probe2 : Nat → Option (VaultResponse Unit)) (mt2 : Option Nat)
        (c : Nat) (l : String),
      (resilientVaultRequest primary2 probe2 mt2).result
          = .error (.VaultRedirectError c l) →
      ∃ i, checkVaultHealth (probe2 i) = .error (.VaultRedirectError c l)) := by
  constructor
  · have hs : isSuccess resp.status = false := by
      rw [isRedirection_eq_true_iff] at h3xx
      rw [isSuccess_eq_false_iff]
      omega
    have hor : (isClientError resp.status || isRedirection resp.status) = true := by
      simp [h3xx]
    obtain ⟨M, hM⟩ : ∃ M, mt.getD U32MAX = M + 1 := ⟨mt.getD U32MAX - 1, by omega⟩
    rw [resilientVaultRequest, hM]
    simp only [vaultGo, hresp, hs, hor, Bool.false_eq_true, if_neg, if_pos,
      not_false_eq_true, if_true]
  · intro γ primary2 probe2 mt2 c l h
    exact vaultGo_redirect_source _ _ _ c l h

/-- Witness for C10: a 301 with a present Location header on the first
attempt still yields the VaultOtherError fatal outcome after one attempt,
ignoring the header. -/
theorem claim_C10_witness :
    resilientVaultRequest (fun _ => some (⟨301, some [47], ()⟩ : VaultResponse Unit))
        (fun _ => none) none
      = ⟨.error (.VaultOtherError (clientErrorMsg 301)), 1, 0⟩ :=
  (claim_C10 (fun _ => some ⟨301, some [47], ()⟩) (fun _ => none) none
    ⟨301, some [47], ()⟩ rfl (by decide) (by decide)).1

/-- C4: with max_attempts = N the executor makes at most N primary
attempts, and when every attempt inside the budget is retryable (none
succeeds or fails fatally) it makes exactly N attempts and returns the
exhaustion VaultOtherError naming N attempts; at N = 1 this means a
transient failure is never retried. -/
theorem claim_C4 {β : Type} (primary : Nat → Option (VaultResponse β))
    (probe : Nat → Option (VaultResponse Unit)) (N : Nat) (hN : 1 ≤ N) :
    (resilientVaultRequest primary probe (some N)).attempts ≤ N ∧
    ((∀ i, i < N → attemptRetryable primary probe i = true) →
      (resilientVaultRequest primary probe (some N)).result
          = .error (.VaultOtherError (exhaustMsg N)) ∧
      (resilientVaultRequest primary probe (some N)).attempts = N) := by
  constructor
  · have h := vaultGo_attempts_le primary probe N N 0 0
    simpa [resilientVaultRequest] using h
  · intro hall
    have h := @vaultGo_all_retryable β primary probe N N 0 0
      (fun i h1 h2 => hall i (by omega))
    simpa [resilientVaultRequest] using h

/-- Witness for C4: one attempt budget and a transport failure on the first
attempt gives exactly one attempt and the exhaustion error, with no
retry. -/
theorem claim_C4_witness :
    (resilientVaultRequest (fun _ => (none : Option (VaultResponse Unit)))
        (fun _ => none) (some 1)).attempts ≤ 1 ∧
    ((resilientVaultRequest (fun _ => (none : Option (VaultResponse Unit)))
        (fun _ => none) (some 1)).result
          = .error (.VaultOtherError (exhaustMsg 1)) ∧
      (resilientVaultRequest (fun _ => (none : Option (VaultResponse Unit)))
        (fun _ => none) (some 1)).attempts = 1) := by
  have h := claim_C4 (fun _ => (none : Option (VaultResponse Unit)))
    (fun _ => none) 1 (by decide)
  exact ⟨h.1, h.2 (fun i _ => rfl)⟩

/-- Primary trace refuting claim C7: a finite run of exactly u32::MAX
transport failures followed by 2xx responses forever after. -/
def c7Primary : Nat → Option (VaultResponse Unit) :=
  fun i => if i < U32MAX then none else some ⟨200, none, ()⟩

/-- Counterexample to C7: with max_attempts not supplied the budget is
u32::MAX rather than unbounded, so a finite sequence of u32::MAX retryable
failures (followed by successes the executor never reaches) makes it return
the attempt-exhaustion error instead of retrying until the success. -/
theorem claim_C7_counterexample :
    (resilientVaultRequest c7Primary (fun _ => none) none).result
      = .error (.VaultOtherError (exhaustMsg U32MAX)) := by
  have h := @vaultGo_all_retryable Unit c7Primary (fun _ => none) U32MAX
    U32MAX 0 0
    (fun i h1 h2 => by
      have hi : i < U32MAX := by omega
      simp [attemptRetryable, c7Primary, hi])
  simpa [resilientVaultRequest] using h.1

/-- C7 as amended: when max_attempts is not supplied the budget defaults to
u32::MAX = 4294967295 attempts; the executor retries through any run of
fewer than u32::MAX retryable failures until the first 2xx, and only after
u32::MAX consecutive retryable attempts does it return the
attempt-exhaustion error naming u32::MAX attempts. -/
theorem claim_C7_amended {β : Type} (primary : Nat → Option (VaultResponse β))
    (probe : Nat → Option (VaultResponse Unit)) :
    (∀ (j : Nat) (resp : VaultResponse β), j < U32MAX →
      (∀ i, i < j → attemptRetryable primary probe i = true) →
      primary j = some resp → isSuccess resp.status = true →
      (resilientVaultRequest primary probe none).result = .ok resp ∧
      (resilientVaultRequest primary probe none).attempts = j + 1) ∧
    ((∀ i, i < U32MAX → attemptRetryable primary probe i = true) →
      (resilientVaultRequest primary probe none).result
          = .error (.VaultOtherError (exhaustMsg U32MAX)) ∧
      (resilientVaultRequest primary probe none).attempts = U32MAX) := by
  constructor
  · intro j resp hj hall hp hs
    have h := @vaultGo_success_at β primary probe U32MAX j U32MAX 0 0 resp hj
      (fun i h1 h2 => hall i (by omega)) (by simpa using hp) hs
    simpa [resilientVaultRequest] using h
  · intro hall
    have h := @vaultGo_all_retryable β primary probe U32MAX U32MAX 0 0
      (fun i h1 h2 => hall i (by omega))
    simpa [resilientVaultRequest] using h

/-- Primary trace for the C7 witness: one transport failure, then 2xx. -/
def c7WitnessPrimary : Nat → Option (VaultResponse Unit) :=
  fun i => if i = 0 then none else some ⟨200, none, ()⟩

/-- Witness for the amended C7: a single retryable failure followed by a
2xx is retried until the success, using two attempts in total. -/
theorem claim_C7_witness :
    (resilientVaultRequest c7WitnessPrimary (fun _ => none) none).result
        = .ok ⟨200, none, ()⟩ ∧
      (resilientVaultRequest c7WitnessPrimary (fun _ => none) none).attempts = 2 := by
  have h := (claim_C7_amended c7WitnessPrimary (fun _ => none)).1 1
    ⟨200, none, ()⟩ (by norm_num [U32MAX])
    (fun i hi => by
      have : i = 0 := by omega
      subst this
      rfl)
    rfl (by decide)
  exact h

/-- Body of the mocked list response of the C2 counterexample: exactly the
data object with the two serials and nothing else. -/
def c2Body : Json :=
  .obj [("data", .obj [("keys", .arr [.str "serial-A", .str "serial-B"])])]

/-- Primary trace of the C2 counterexample: a 2xx response whose body is
the minimal document. -/
def c2Primary : Nat → Option (VaultResponse Json) :=
  fun _ => some ⟨200, none, c2Body⟩

/-- Counterexample to C2: a response body containing exactly the data/keys
object is rejected, because request_id (like lease_id, renewable and
lease_duration) is a mandatory field of PkiListResponse; certificate_list
returns the deserialization VaultOtherError instead of the keys. -/
theorem claim_C2_counterexample :
    certificateList c2Primary (fun _ => none)
      = .error (.VaultOtherError
          "Cannot deserialize vault certificate list: missing field request_id") := by
  rfl

/-- C2 as amended: certificate_list returns exactly the keys array in order
whenever the body carries the four mandatory fields request_id, lease_id,
renewable and lease_duration together with data.keys; the optional fields
wrap_info, warnings and auth and any unknown fields are accepted but not
interpreted, while the absence of a mandatory field makes parsing fail (as
the counterexample shows). -/
theorem claim_C2_amended (primary : Nat → Option (VaultResponse Json))
    (probe : Nat → Option (VaultResponse Unit)) (j : Json)
    (resp : VaultResponse Json)
    (hresp : primary 0 = some resp) (hbody : resp.body = j)
    (hst : isSuccess resp.status = true)
    (rid lid : String) (ren : Bool) (ld : Int)
    (h1 : j.getField "request_id" = some (.str rid))
    (h2 : j.getField "lease_id" = some (.str lid))
    (h3 : j.getField "renewable" = some (.bool ren))
    (h4 : j.getField "lease_duration" = some (.num ld))
    (hld : 0 ≤ ld ∧ ld < 4294967296)
    (dj : Json) (keys : List String)
    (h5 : j.getField "data" = some dj)
    (h6 : KeyHolder.fromJson dj = .ok ⟨keys⟩)
    (h7 : ∃ w, optStr j "wrap_info" = .ok w)
    (h8 : ∃ w, optStr j "warnings" = .ok w)
    (h9 : ∃ w, optStr j "auth" = .ok w) :
    certificateList primary probe = .ok keys := by
  obtain ⟨w7, hw7⟩ := h7
  obtain ⟨w8, hw8⟩ := h8
  obtain ⟨w9, hw9⟩ := h9
  have hres := @vaultGo_success_at Json primary probe U32MAX 0 U32MAX 0 0 resp
    (by norm_num [U32MAX]) (fun i h1 h2 => by omega) (by simpa using hresp) hst
  simp only [certificateList, show resilientVaultRequest primary probe none
      = vaultGo primary probe U32MAX U32MAX 0 0 from rfl, hres.1, hbody,
    PkiListResponse.fromJson,
    show reqStr j "request_id" = Except.ok rid from by simp [reqStr, h1],
    show reqStr j "lease_id" = Except.ok lid from by simp [reqStr, h2],
    show reqBool j "renewable" = Except.ok ren from by simp [reqBool, h3],
    show reqU32 j "lease_duration" = Except.ok ld.toNat from by
      simp [reqU32, h4, if_pos hld],
    h5, h6, hw7, hw8, hw9]

/-- Full body for the C2 witness: the two serials under data.keys together
with all four mandatory fields and a null optional field. -/
def c2FullBody : Json :=
  .obj [("request_id", .str "r1"), ("lease_id", .str "l1"),
        ("renewable", .bool false), ("lease_duration", .num 0),
        ("data", .obj [("keys", .arr [.str "serial-A", .str "serial-B"])]),
        ("warnings", .null)]

/-- Witness for the amended C2: with the mandatory fields present the two
serials come back in order. -/
theorem claim_C2_witness :
    certificateList (fun _ => some ⟨200, none, c2FullBody⟩) (fun _ => none)
      = .ok ["serial-A", "serial-B"] :=
  claim_C2_amended (fun _ => some ⟨200, none, c2FullBody⟩) (fun _ => none)
    c2FullBody ⟨200, none, c2FullBody⟩ rfl rfl (by decide) "r1" "l1" false 0
    rfl rfl rfl rfl (by decide)
    (.obj [("keys", .arr [.str "serial-A", .str "serial-B"])])
    ["serial-A", "serial-B"] rfl rfl ⟨none, rfl⟩ ⟨none, rfl⟩ ⟨none, rfl⟩

/-- C9: certificate_by_serial_as_pem returns the response body verbatim as
UTF-8 text: on a successful request whose body decodes as UTF-8 it returns
that text and re-encoding the text reproduces the body byte for byte; a
body that is not valid UTF-8 gives the parse VaultOtherError; an exhausted
request budget surfaces the exhaustion VaultOtherError unchanged. -/
theorem claim_C9 (primary : Nat → Option (VaultResponse (List Nat)))
    (probe : Nat → Option (VaultResponse Unit)) (serial : String) :
    (∀ resp text,
      (resilientVaultRequest primary probe none).result = .ok resp →
      utf8Decode resp.body = some text →
      certificateBySerialAsPem primary probe serial = .ok text
        ∧ utf8Encode text = resp.body) ∧
    (∀ resp,
      (resilientVaultRequest primary probe none).result = .ok resp →
      utf8Decode resp.body = none →
      certificateBySerialAsPem primary probe serial
        = .error (.VaultOtherError (pemParseErrMsg serial))) ∧
    ((resilientVaultRequest primary probe none).result
        = .error (.VaultOtherError (exhaustMsg U32MAX)) →
      certificateBySerialAsPem primary probe serial
        = .error (.VaultOtherError (exhaustMsg U32MAX))) := by
  refine ⟨?_, ?_, ?_⟩
  · intro resp text hres hdec
    constructor
    · simp only [certificateBySerialAsPem, hres, hdec]
    · exact utf8Decode_encode resp.body text hdec
  · intro resp hres hdec
    simp only [certificateBySerialAsPem, hres, hdec]
  · intro hres
    simp only [certificateBySerialAsPem, hres]

/-- Witness for C9: a three-byte ASCII body comes back as the same three
scalar values, whose encoding is the body itself. -/
theorem claim_C9_witness :
    certificateBySerialAsPem (fun _ => some ⟨200, none, [80, 69, 77]⟩)
        (fun _ => none) "serial-A" = .ok [80, 69, 77]
      ∧ utf8Encode [80, 69, 77] = [80, 69, 77] :=
  (claim_C9 (fun _ => some ⟨200, none, [80, 69, 77]⟩) (fun _ => none)
    "serial-A").1 ⟨200, none, [80, 69, 77]⟩ [80, 69, 77] (by decide) (by decide)

/-- C5: the transport builder enforces that custom trust anchors require a
resolvable proxy: with a non-empty trust-anchor set and an empty resolved
proxy set (and the conversion and TLS steps succeeding) construction fails
with the misconfiguration io::Error, the one crypto.rs surfaces as
SamplyBeamError.HttpProxyProblem and the specification calls
HttpProxyMisconfigured; with an empty trust-anchor set and no proxies
construction succeeds and returns the client. -/
theorem claim_C5 (env : BuildEnv) (ca : List X509) (ps : List String)
    (hconn : env.connectorProxies = .ok ps) :
    (ca ≠ [] → ps = [] →
      (∃ roots, convertCerts env ca = .ok roots ∧ env.tlsBuild roots = .ok ()) →
      build_hyper_client env ca = .ioError proxyMisconfigMsg) ∧
    (ca = [] → ps = [] → build_hyper_client env ca = .ok) := by
  constructor
  · intro hne hps hroots
    obtain ⟨roots, hr, ht⟩ := hroots
    have hemp : ca.isEmpty = false := by
      simp [List.isEmpty_iff, hne]
    have hlen : 0 < ca.length := List.length_pos.mpr hne
    simp only [build_hyper_client, hconn, hemp, Bool.false_eq_true, if_neg,
      not_false_eq_true, hr, ht, hps, List.dedup_nil, List.length_nil]
    simp [hlen]
  · intro hca hps
    subst hca hps
    simp [build_hyper_client, hconn]

/-- Environment for the C5 witness: no proxies resolve, certificate
conversion and TLS construction succeed. -/
def c5Env : BuildEnv :=
  ⟨.ok [], fun bs => some ⟨bs⟩, fun _ => .ok ()⟩

/-- Witness for C5: one trust anchor and no proxy fail with the
misconfiguration error, while no trust anchor and no proxy succeed. -/
theorem claim_C5_witness :
    build_hyper_client c5Env [⟨some [1]⟩] = .ioError proxyMisconfigMsg ∧
      build_hyper_client c5Env [] = .ok := by
  constructor
  · exact (claim_C5 c5Env [⟨some [1]⟩] [] rfl).1 (by simp) rfl ⟨[⟨[1]⟩], rfl, rfl⟩
  · exact (claim_C5 c5Env [] [] rfl).2 rfl rfl

/-- Environment refuting C8: the proxy discovery of connector() fails. -/
def c8Env : BuildEnv :=
  ⟨.error "proxy discovery failed", fun _ => none, fun _ => .ok ()⟩

/-- Counterexample to C8: the transport builder does not always return a
client or a typed error: when the proxy-environment discovery fails it
panics (http_proxy.rs line 20), even for an empty trust-anchor set. -/
theorem claim_C8_counterexample :
    build_hyper_client c8Env []
      = .panicked "Unable to build HTTP client: proxy discovery failed" := rfl

/-- C8 as amended: provided the proxy-environment discovery succeeds and
every supplied trust anchor converts successfully, the transport builder
either returns a ready client or returns a typed io::Error (surfaced as
HttpProxyProblem), and the error branch is the only alternative to success;
without those provisos it can panic, as the counterexample shows. -/
theorem claim_C8_amended (env : BuildEnv) (ca : List X509) (ps : List String)
    (hconn : env.connectorProxies = .ok ps)
    (hcerts : ∃ roots, convertCerts env ca = .ok roots) :
    build_hyper_client env ca = .ok
      ∨ ∃ msg, build_hyper_client env ca = .ioError msg := by
  obtain ⟨roots, hr⟩ := hcerts
  by_cases hca : ca.isEmpty
  · simp only [build_hyper_client, hconn, hca, if_true, if_pos]
    by_cases hcond : ps.dedup.length = 0 ∧ 0 < ca.length
    · rw [if_pos hcond]; exact Or.inr ⟨proxyMisconfigMsg, rfl⟩
    · rw [if_neg hcond]; exact Or.inl rfl
  · simp only [build_hyper_client, hconn, hca, Bool.false_eq_true, if_neg,
      not_false_eq_true, hr]
    cases ht : env.tlsBuild roots with
    | error e =>
      exact Or.inr
        ⟨"Unable to build TLS Connector with custom CA certificates: " ++ e, rfl⟩
    | ok u =>
      by_cases hcond : ps.dedup.length = 0 ∧ 0 < ca.length
      · rw [if_pos hcond]; exact Or.inr ⟨proxyMisconfigMsg, rfl⟩
      · rw [if_neg hcond]; exact Or.inl rfl

/-- Environment for the C8 witness: one proxy resolves and every step
succeeds. -/
def c8WitnessEnv : BuildEnv :=
  ⟨.ok ["socks"], fun bs => some ⟨bs⟩, fun _ => .ok ()⟩

/-- Witness for the amended C8: with proxy discovery succeeding and a
convertible trust anchor the builder does not panic. -/
theorem claim_C8_witness :
    build_hyper_client c8WitnessEnv [⟨some [1]⟩] = .ok
      ∨ ∃ msg, build_hyper_client c8WitnessEnv [⟨some [1]⟩] = .ioError msg :=
  claim_C8_amended c8WitnessEnv [⟨some [1]⟩] ["socks"] rfl ⟨[⟨[1]⟩], rfl⟩
